import Mathlib

/-!
# privacydam-go: connection-pool registry, API resolution and registration

A shallow embedding of `v1/core/db/init.go`, `v1/core/getter.go`,
`v1/process/process.go`, `v1/process/util/db/internal.go` and `v1/save/save.go`.

Conventions of the embedding

* A Go `error` is an `Option GoError`: `none` is `nil`, `some msg` an error whose
  text is `msg`.
* Package-level variables (`gExDB`, `gInDB`) become the fields of `Registry`, which
  every function that reads or writes them receives and returns explicitly.
* A Go panic (write into a nil map, failed type assertion) is the constructor
  `Run.panicked`.
* Functions of libraries outside the repository (`database/sql`, `sqlx`, `time`,
  `xray`) are fields of oracle structures; the control-plane database is a small
  transactional store.
-/

namespace PrivacyDam

/-! ## Model types (`privacydam-go/v1/core/model`) -/

/-- Text of a Go error value. -/
abbrev GoError := String

/-- Identity of an opened `*sqlx.DB` handle. -/
abbrev Handle := Nat

/-- Modelled from the spec: the package `model` is not among the sources. The
struct `model.Source`, with the fields the code reads (the spec: category,
dialect/type, display name, real connection string, unique identifier). -/
structure Source where
  Uuid : String
  Category : String
  Type_ : String
  Name : String
  RealDsn : String
  FakeDsn : String
  deriving DecidableEq, Repr

/-- Modelled from the spec: the package `model` is not among the sources. The
struct `model.ConnInfo`, with the fields `CreateConnectionPool` fills;
`Instance` is a pointer, `none` being the nil pointer. -/
structure ConnInfo where
  Category : String
  Type_ : String
  Name : String
  Tracking : Bool
  Instance : Option Handle
  deriving DecidableEq, Repr

/-- The zero value `model.ConnInfo{}`. -/
def ConnInfo.zero : ConnInfo := ⟨"", "", "", false, none⟩

/-- Outcome of running Go code that may panic. -/
inductive Run (α : Type) where
  | ret (a : α)
  | panicked
  deriving DecidableEq, Repr

/-- A Go `interface{}` value as far as `key.(string)` distinguishes them. -/
inductive Key where
  | nil
  | str (s : String)
  | other (tag : Nat)
  deriving DecidableEq, Repr

/-! ## Go maps with string keys -/

/-- A Go `map[string]V` that has been made: association list, first binding wins. -/
abbrev GoMap (V : Type) := List (String × V)

/-- Reading `m[k]` with the comma-ok form. -/
def GoMap.get {V : Type} (m : GoMap V) (k : String) : Option V :=
  match m with
  | [] => none
  | (k', v) :: rest => if k' = k then some v else GoMap.get rest k

/-- The assignment `m[k] = v`: any earlier binding of `k` is replaced. -/
def GoMap.set {V : Type} (m : GoMap V) (k : String) (v : V) : GoMap V :=
  (k, v) :: m.filter (fun e => !decide (e.1 = k))

/-! ## The registry (`v1/core/db/init.go`) -/

/-- The package variables `gExDB` and `gInDB`; `gExDB = none` is the nil map a
process has before `Initialization` runs `make`. -/
structure Registry where
  gExDB : Option (GoMap ConnInfo)
  gInDB : ConnInfo
  deriving DecidableEq, Repr

/-- The registry of a freshly started process. -/
def Registry.initial : Registry := ⟨none, ConnInfo.zero⟩

/-- The database driver as seen by `CreateConnectionPool`: opening a handle
(plain or traced) and pinging it (plain or with a context). -/
structure Driver where
  sqlOpen : String → String → Except GoError Handle
  xraySQLContext : String → String → Except GoError Handle
  ping : Handle → Option GoError
  pingContext : Handle → Option GoError

def INTERNAL_CONN_LIMIT : Nat := 8
def EXTERNAL_CONN_LIMIT : Nat := 8
/-- Thirty seconds, in nanoseconds. -/
def INTERNAL_CONN_TIMEOUT : Int := 30 * 1000000000
def EXTERNAL_CONN_TIMEOUT : Int := 30 * 1000000000

/-- The options `setConnectionPoolOptions` applies: the connection limit (used
for both max-open and max-idle) and the idle timeout of the pool class. -/
def setConnectionPoolOptions (isEx : Bool) : Nat × Int :=
  if isEx then (EXTERNAL_CONN_LIMIT, EXTERNAL_CONN_TIMEOUT)
  else (INTERNAL_CONN_LIMIT, INTERNAL_CONN_TIMEOUT)

/-- `CreateConnectionPool(ctx, tracking, source, isEx)`: the returned error and
the registry afterwards. -/
def CreateConnectionPool (d : Driver) (tracking : Bool) (source : Source) (isEx : Bool)
    (r : Registry) : Run (Option GoError × Registry) :=
  let opened :=
    if tracking then d.xraySQLContext source.Type_ source.RealDsn
    else d.sqlOpen source.Type_ source.RealDsn
  match opened with
  | .error e => .ret (some e, r)
  | .ok db =>
    let wappingDB : Handle := db
    let pinged := if tracking then d.pingContext wappingDB else d.ping wappingDB
    match pinged with
    | some e => .ret (some e, r)
    | none =>
      let conn : ConnInfo :=
        { Category := source.Category, Type_ := source.Type_, Name := source.Name,
          Tracking := tracking, Instance := some wappingDB }
      if isEx then
        match r.gExDB with
        | none => .panicked
        | some m => .ret (none, { r with gExDB := some (m.set source.Uuid conn) })
      else
        .ret (none, { r with gInDB := conn })

def errNoInit : GoError := "No initialization was made for the database"
def errInvalidKey : GoError := "Invalid database key"
def errInvalidConnType : GoError := "Invalid conn type"

/-- `GetDatabase(connType, key)`: the returned `ConnInfo` and error. Reading a
nil map yields the zero value with `ok = false`. -/
def GetDatabase (connType : String) (key : Key) (r : Registry) :
    Run (ConnInfo × Option GoError) :=
  if connType = "internal" then
    if r.gInDB.Instance = none then .ret (r.gInDB, some errNoInit)
    else .ret (r.gInDB, none)
  else if connType = "external" then
    match key with
    | .str k =>
      match (r.gExDB.getD []).get k with
      | some value => .ret (value, none)
      | none => .ret (ConnInfo.zero, some errInvalidKey)
    | _ => .panicked
  else .ret (ConnInfo.zero, some errInvalidConnType)

/-- `GetInternalDatabase()` of `v1/core/getter.go`. -/
def GetInternalDatabase (r : Registry) : Run (ConnInfo × Option GoError) :=
  GetDatabase "internal" Key.nil r

/-- `GetExternalDatabase(key)` of `v1/core/getter.go`. -/
def GetExternalDatabase (key : Key) (r : Registry) : Run (ConnInfo × Option GoError) :=
  GetDatabase "external" key r

/-! ## Library functions the code calls (`strconv`, `time`, `regexp`) -/

/-- The digits of `strconv.ParseUint(s, 10, 64)` before its range check: a
non-empty run of ASCII digits, read in base 10. -/
def parseUintDigits (cs : List Char) : Option Nat :=
  if cs = [] then none
  else if cs.all Char.isDigit then some (cs.foldl (fun acc c => 10 * acc + (c.toNat - 48)) 0)
  else none

/-- `strconv.ParseInt(s, 10, 64)`: `none` when it returns a non-nil error (syntax
or range), otherwise the value. One optional sign, then digits; the magnitude
must be below `2^63` (at most `2^63` when negative). -/
def ParseInt (s : String) : Option Int :=
  match s.toList with
  | [] => none
  | c :: rest =>
    let neg : Bool := c = '-'
    let ds : List Char := if c = '+' ∨ c = '-' then rest else c :: rest
    match parseUintDigits ds with
    | none => none
    | some un =>
      if !neg && decide (un ≥ 2 ^ 63) then none
      else if neg && decide (un > 2 ^ 63) then none
      else some (if neg then -(un : Int) else (un : Int))

/-- `strconv.ParseBool(s)`: `none` when it returns an error. -/
def ParseBool (s : String) : Option Bool :=
  if s ∈ ["1", "t", "T", "TRUE", "true", "True"] then some true
  else if s ∈ ["0", "f", "F", "FALSE", "false", "False"] then some false
  else none

/-- An instant (`time.Time`), in nanoseconds since the zero time, January 1 of
year 1, 00:00:00 UTC. -/
abbrev Time := Int

/-- The zero value `time.Time{}`. -/
def Time.zero : Time := 0

/-- `t.Before(u)`. -/
def Time.Before (t u : Time) : Bool := decide (t < u)

/-- `t.Add(d)` for a duration of `d` nanoseconds. -/
def Time.Add (t : Time) (d : Int) : Time := t + d

/-- The value an `int64` computation yields for the mathematical result `x`:
two's-complement wraparound modulo `2^64`. -/
def wrapInt64 (x : Int) : Int := (x + 2 ^ 63) % 2 ^ 64 - 2 ^ 63

/-- The constant `time.Hour`, in nanoseconds. -/
def Hour : Int := 3600000000000

/-- The product `time.Hour * time.Duration(n)` as Go computes it at run time. -/
def hoursDuration (n : Int) : Int := wrapInt64 (Hour * n)

/-- The two functions of package `time` that depend on the calendar, for the
layout `"2006-01-02 15:04:05"`: `time.Parse(layout, ·)` and `t.Format(layout)`. -/
structure TimeLib where
  parse : String → Except GoError Time
  format : Time → String

/-- One item of a regular expression of the shape used by the code: the anchor
`^`, a literal character, or a literal character followed by `+`. -/
inductive Re where
  | bol
  | lit (c : Char)
  | plus (c : Char)
  deriving DecidableEq, Repr

/-- Compiling a pattern made of `^`, literal characters and `+`: `none` is a
compilation error (a `+` with nothing to repeat). -/
def compileRe : List Char → Option (List Re)
  | [] => some []
  | '+' :: _ => none
  | '^' :: rest => (compileRe rest).map (fun r => Re.bol :: r)
  | c :: '+' :: rest => (compileRe rest).map (fun r => Re.plus c :: r)
  | c :: rest => (compileRe rest).map (fun r => Re.lit c :: r)

/-- Whether the items match a prefix of `s`; `atStart` says that `s` is the whole
input. -/
def matchItems : List Re → Bool → List Char → Bool
  | [], _, _ => true
  | Re.bol :: rest, atStart, s => atStart && matchItems rest atStart s
  | Re.lit _ :: _, _, [] => false
  | Re.lit c :: rest, _, x :: xs => x == c && matchItems rest false xs
  | Re.plus _ :: _, _, [] => false
  | Re.plus c :: rest, _, x :: xs =>
    x == c && (matchItems (Re.plus c :: rest) false xs || matchItems rest false xs)
termination_by items _ s => (s.length, items.length)

/-- Whether the items match somewhere in the input (an unanchored search). -/
def searchItems (items : List Re) : Bool → List Char → Bool
  | atStart, [] => matchItems items atStart []
  | atStart, x :: xs => matchItems items atStart (x :: xs) || searchItems items false xs

/-- `regexp.MatchString(pattern, s)` for patterns of the supported shape. -/
def regexpMatchString (pattern : String) (s : String) : Except GoError Bool :=
  match compileRe pattern.toList with
  | none => .error "error parsing regexp: missing argument to repetition operator"
  | some items => .ok (searchItems items true s.toList)

/-! ## Request-side validation (`v1/process/process.go`) -/

def errInvalidAlias : GoError := "Invalid API alias format"
def errExpired : GoError := "This API has expired"
def errDisabled : GoError := "This API is not avaliable"

/-- `VerifyApiAliasFormat(alias)`. -/
def VerifyApiAliasFormat (alias_ : String) : Option GoError :=
  match regexpMatchString "^a_+" alias_ with
  | .error e => some e
  | .ok false => some errInvalidAlias
  | .ok true => none

/-- `VerifyExpires(ctx, tracking, date, status)` run at the instant `now`. When
`time.Parse` fails it returns the zero time together with its error. The tracing
subsegment opened when `tracking` is set does not touch the result. -/
def VerifyExpires (lib : TimeLib) (now : Time) (_tracking : Bool) (date status : String) :
    Option GoError :=
  let parsed : Time × Option GoError :=
    match lib.parse date with
    | .ok t => (t, none)
    | .error e => (Time.zero, some e)
  if parsed.1.Before now then some errExpired
  else if status = "disabled" then some errDisabled
  else parsed.2

/-- `verifyParameters(standard, target)`; the supplied values are opaque. -/
def verifyParameters {V : Type} (standard : List V) (target : List String) : Option GoError :=
  if standard.length ≠ target.length then some "Invalid paramters" else none

/-! ## The control-plane database

The tables of the storage schema and one transaction over them, as
`database/sql` presents them: writes made through a transaction stay pending
until `Commit`; `Rollback`, or a `Commit` that fails, discards them; once a
transaction is finished every further call on it returns `ErrTxDone`. -/

/-- A value bound to a placeholder of a statement. -/
inductive SqlArg where
  | int (i : Int)
  | str (s : String)
  deriving DecidableEq, Repr

structure SourceRow where
  source_id : String
  source_category : String
  source_type : String
  source_name : String
  real_dsn : String
  fake_dsn : String
  deriving DecidableEq, Repr

structure ApiRow where
  api_id : Int
  source_id : String
  api_name : String
  api_alias : String
  api_type : String
  syntaxText : String
  reg_date : String
  exp_date : String
  status : String
  deriving DecidableEq, Repr

structure ParameterRow where
  api_id : Int
  parameter_key : String
  deriving DecidableEq, Repr

structure DidOptionRow where
  api_id : Int
  options : String
  deriving DecidableEq, Repr

/-- The committed contents of the control-plane database. -/
structure Store where
  source : List SourceRow
  api : List ApiRow
  parameter : List ParameterRow
  did_option : List DidOptionRow
  deriving DecidableEq, Repr

def Store.empty : Store := ⟨[], [], [], []⟩

/-- A row insertion. -/
inductive Write where
  | api (r : ApiRow)
  | parameter (r : ParameterRow)
  | did_option (r : DidOptionRow)
  deriving DecidableEq, Repr

/-- Appending the row of a write to its table. -/
def Store.apply (s : Store) : Write → Store
  | .api r => { s with api := s.api ++ [r] }
  | .parameter r => { s with parameter := s.parameter ++ [r] }
  | .did_option r => { s with did_option := s.did_option ++ [r] }

/-- Applying writes in order. -/
def Store.applyAll (s : Store) (ws : List Write) : Store := ws.foldl Store.apply s

/-- A call that reaches the registry or the control-plane database. -/
inductive Event where
  | lookup (connType : String)
  | begin
  | exec (query : String) (args : List SqlArg)
  | lastInsertId
  | prepare (query : String)
  | stmtExec (query : String) (args : List SqlArg)
  | commit
  | rollback
  | namedExec (query : String)
  | query (query : String) (args : List SqlArg)
  deriving DecidableEq, Repr

/-- State of a transaction. -/
inductive TxStatus where
  | active
  | committed
  | rolledBack
  deriving DecidableEq, Repr

/-- The control-plane database during one call: its committed tables, the writes
pending in the call's transaction, the state of that transaction and the calls
made so far. -/
structure Session where
  store : Store
  pending : List Write
  status : TxStatus
  trace : List Event
  deriving DecidableEq, Repr

/-- What the database answers to each call of one run: `none` or `.ok` lets the
call succeed, `some e` or `.error e` makes it fail with `e`. For an insert into
a table with a generated key, `.ok id` carries the key storage assigns. -/
structure Faults where
  begin : Option GoError
  execApi : Except GoError Int
  lastInsertId : Option GoError
  prepare : Option GoError
  stmtExec : Nat → Option GoError
  execDid : Option GoError
  commit : Option GoError
  execSource : Except GoError String
  queryApi : Option GoError
  scan : Option GoError
  rowsErr : Option GoError
  selectParams : Option GoError
  regDate : String

def ErrTxDone : GoError := "sql: transaction has already been committed or rolled back"
def errBadValue : GoError := "Incorrect value for column"

def qInsertApi : String :=
  "INSERT INTO api (source_id, api_name, api_alias, api_type, syntax, exp_date) VALUE (?, ?, ?, ?, ?, ?)"
def qInsertParameter : String := "INSERT INTO parameter (api_id, parameter_key) VALUE (?, ?)"
def qInsertDidOption : String := "INSERT INTO did_option (api_id, options) VALUE (?, ?)"
def qInsertSource : String :=
  "INSERT INTO source (source_category, source_type, source_name, real_dsn, fake_dsn) VALUE (:source_category, :source_type, :source_name, :real_dsn, :fake_dsn)"
def qSelectApi : String :=
  "SELECT api_id, source_id, api_name, api_alias, api_type, syntax \"queryContent.syntax\", reg_date, exp_date, status FROM api WHERE api_alias=?"
def qSelectParameters : String :=
  "SELECT p.parameter_key FROM api AS a INNER JOIN parameter AS p ON a.api_id=p.api_id WHERE a.api_id=?"

/-- Number of `?` placeholders of a statement (`driver.Stmt.NumInput`). -/
def placeholders (q : String) : Nat := q.toList.count '?'

/-- The argument-count check `database/sql` makes before it runs a statement. -/
def checkArgs (q : String) (args : List SqlArg) : Option GoError :=
  if placeholders q = args.length then none
  else some ("sql: expected " ++ toString (placeholders q) ++ " arguments, got "
    ++ toString args.length)

/-- Modelled from the spec: the table definitions are not among the sources; a
new `api` row gets the status `active` (status ∈ {active, disabled}, a resolved
fresh definition has `status="active"`) and the registration date storage
supplies. The row an insert statement writes, given its bound arguments and the
key storage generates for it. -/
def decodeInsert (regDate : String) (q : String) (id : Int) (args : List SqlArg) : Option Write :=
  if q = qInsertApi then
    match args with
    | [.str a, .str b, .str c, .str d, .str e, .str g] =>
      some (.api ⟨id, a, b, c, d, e, regDate, g, "active"⟩)
    | _ => none
  else if q = qInsertParameter then
    match args with
    | [.int i, .str k] => some (.parameter ⟨i, k⟩)
    | _ => none
  else if q = qInsertDidOption then
    match args with
    | [.int i, .str o] => some (.did_option ⟨i, o⟩)
    | _ => none
  else none

/-- Running one insert inside the transaction: the argument-count check, the
answer of the database, then the pending write. -/
def Session.run (s : Session) (regDate : String) (answer : Except GoError Int) (q : String)
    (args : List SqlArg) : Except GoError Int × Session :=
  if s.status ≠ .active then (.error ErrTxDone, s)
  else
    match checkArgs q args with
    | some e => (.error e, s)
    | none =>
      match answer with
      | .error e => (.error e, s)
      | .ok id =>
        match decodeInsert regDate q id args with
        | none => (.error errBadValue, s)
        | some wr => (.ok id, { s with pending := s.pending ++ [wr] })

/-- `tx.Exec(query, args...)` and `tx.ExecContext(ctx, query, args...)`. -/
def Session.exec (s : Session) (regDate : String) (answer : Except GoError Int) (q : String)
    (args : List SqlArg) : Except GoError Int × Session :=
  Session.run { s with trace := s.trace ++ [.exec q args] } regDate answer q args

/-- `stmt.Exec(args...)` and `stmt.ExecContext(ctx, args...)` on a statement
prepared from `q`. -/
def Session.stmtExec (s : Session) (regDate : String) (answer : Option GoError) (q : String)
    (args : List SqlArg) : Option GoError × Session :=
  let r := Session.run { s with trace := s.trace ++ [.stmtExec q args] } regDate
    (match answer with | some e => .error e | none => .ok 0) q args
  (match r.1 with | .error e => some e | .ok _ => none, r.2)

/-- `tx.Commit()`. A commit that fails finishes the transaction with its writes
discarded. -/
def Session.commit (s : Session) (answer : Option GoError) : Option GoError × Session :=
  let s1 := { s with trace := s.trace ++ [.commit] }
  if s.status ≠ .active then (some ErrTxDone, s1)
  else
    match answer with
    | some e => (some e, { s1 with pending := [], status := .rolledBack })
    | none =>
      (none, { s1 with store := s1.store.applyAll s1.pending, pending := [],
                       status := .committed })

/-- `tx.Rollback()`. -/
def Session.rollback (s : Session) : Option GoError × Session :=
  let s1 := { s with trace := s.trace ++ [.rollback] }
  if s.status ≠ .active then (some ErrTxDone, s1)
  else (none, { s1 with pending := [], status := .rolledBack })

/-! ## API definitions (`model.Api`) -/

/-- Modelled from the spec: the package `model` is not among the sources. The
struct `model.QueryContent`, with the fields the code reads and writes. -/
structure QueryContent where
  Syntax : String
  ParamsKey : List String
  DidOptions : String
  deriving DecidableEq, Repr

/-- Modelled from the spec: the package `model` is not among the sources. The
struct `model.Api`, with the fields the code reads and writes. -/
structure Api where
  Uuid : String
  SourceId : String
  Name : String
  Alias : String
  Type_ : String
  QueryContent : QueryContent
  RegDate : String
  ExpDate : String
  Status : String
  deriving DecidableEq, Repr

/-- The registry together with the control-plane database. -/
structure World where
  reg : Registry
  store : Store
  deriving DecidableEq, Repr

/-! ## Registration (`v1/save/save.go`) -/

def errExpiresFormat : GoError := "Invalid expires format (expiration unit is hour)"
def errExpiresEarlier : GoError :=
  "Invalid expires (Expiration date can't be earlier than the current time)"
def errExpiresBlank : GoError := "Invalid expires (can not be blank)"

/-- The block "Set expiration" of `GenerateApi`: the text of the expiration
timestamp, or the error the function returns. -/
def expiresOf (lib : TimeLib) (today : Time) (expDate : String) : Except GoError String :=
  if expDate ≠ "" then
    match ParseInt expDate with
    | none => .error errExpiresFormat
    | some rawExpires =>
      if rawExpires = -1 then .ok (lib.format (today.Add (Hour * 2191500)))
      else if rawExpires > 0 then .ok (lib.format (today.Add (hoursDuration rawExpires)))
      else .error errExpiresEarlier
  else .error errExpiresBlank

/-- The loop over `api.QueryContent.ParamsKey`: the `i`-th execution of the
prepared statement passes the key alone. -/
def execParams (f : Faults) (s : Session) : Nat → List String → Option GoError × Session
  | _, [] => (none, s)
  | i, param :: rest =>
    match s.stmtExec f.regDate (f.stmtExec i) qInsertParameter [.str param] with
    | (some e, s1) => (some e, s1)
    | (none, s1) => execParams f s1 (i + 1) rest

/-- The block `if len(api.QueryContent.ParamsKey) > 0` of `GenerateApi`: prepare
the parameter insert, then run the loop. -/
def GenerateApi.insertParams (f : Faults) (api : Api) (s2 : Session) :
    Option GoError × Session :=
  if api.QueryContent.ParamsKey.length > 0 then
    let s3 := { s2 with trace := s2.trace ++ [.prepare qInsertParameter] }
    match f.prepare with
    | some e => (some e, s3)
    | none => execParams f s3 0 api.QueryContent.ParamsKey
  else (none, s2)

/-- The block `if api.QueryContent.DidOptions != ""` of `GenerateApi`: insert the
de-identification row, binding the inserted id and the options. -/
def GenerateApi.insertDid (f : Faults) (api : Api) (insertedId : Int) (s4 : Session) :
    Option GoError × Session :=
  if api.QueryContent.DidOptions ≠ "" then
    let r := s4.exec f.regDate
      (match f.execDid with | some e => .error e | none => .ok 0)
      qInsertDidOption [.int insertedId, .str api.QueryContent.DidOptions]
    (match r.1 with | .error e => some e | .ok _ => none, r.2)
  else (none, s4)

/-- The part of `GenerateApi` between `defer tx.Rollback()` and its return. The
calls with and without a context (`dbInfo.Tracking`) act alike on the database. -/
def GenerateApi.body (f : Faults) (api : Api) (expires : String) (s0 : Session) :
    Option GoError × Session :=
  match s0.exec f.regDate f.execApi qInsertApi
      [.str api.SourceId, .str api.Name, .str api.Alias, .str api.Type_,
       .str api.QueryContent.Syntax, .str expires] with
  | (.error e, s1) => (some e, s1)
  | (.ok id, s1) =>
    let s2 := { s1 with trace := s1.trace ++ [.lastInsertId] }
    match f.lastInsertId with
    | some e => (some e, s2)
    | none =>
      let insertedId : Int := id
      match GenerateApi.insertParams f api s2 with
      | (some e, s4) => (some e, s4)
      | (none, s4) =>
        match GenerateApi.insertDid f api insertedId s4 with
        | (some e, s5) => (some e, s5)
        | (none, s5) => s5.commit f.commit

/-- What a call leaves behind: the returned error, the committed tables, the
calls made, and the state of the transaction if one was begun. -/
structure Outcome where
  err : Option GoError
  store : Store
  trace : List Event
  tx : Option TxStatus
  deriving DecidableEq, Repr

/-- `GenerateApi(ctx, tracking, api)` run at the instant `today`. -/
def GenerateApi (lib : TimeLib) (f : Faults) (today : Time) (_tracking : Bool) (api : Api)
    (w : World) : Run Outcome :=
  match expiresOf lib today api.ExpDate with
  | .error e => .ret ⟨some e, w.store, [], none⟩
  | .ok expires =>
    match GetDatabase "internal" Key.nil w.reg with
    | .panicked => .panicked
    | .ret (_, some e) => .ret ⟨some e, w.store, [.lookup "internal"], none⟩
    | .ret (_, none) =>
      match f.begin with
      | some e => .ret ⟨some e, w.store, [.lookup "internal", .begin], none⟩
      | none =>
        let s0 : Session := ⟨w.store, [], .active, [.lookup "internal", .begin]⟩
        let r := GenerateApi.body f api expires s0
        let s := (Session.rollback r.2).2
        .ret ⟨r.1, s.store, s.trace, some s.status⟩

def errEnvTracking : GoError := "Invalid environment various (for sql tracking)"

/-- `GenerateSource(ctx, tracking, source)`; `isTrackingEnv` is the value of the
environment variable `IS_TRACKING`. The insert binds the five named parameters
from the fields of `source`; storage generates `source_id`. -/
def GenerateSource (d : Driver) (f : Faults) (isTrackingEnv : String) (_tracking : Bool)
    (source : Source) (w : World) : Run (Option GoError × World × List Event) :=
  match GetDatabase "internal" Key.nil w.reg with
  | .panicked => .panicked
  | .ret (_, some e) => .ret (some e, w, [.lookup "internal"])
  | .ret (_, none) =>
    let trace : List Event := [.lookup "internal", .namedExec qInsertSource]
    match f.execSource with
    | .error e => .ret (some e, w, trace)
    | .ok id =>
      let row : SourceRow :=
        ⟨id, source.Category, source.Type_, source.Name, source.RealDsn, source.FakeDsn⟩
      let w1 : World := { w with store := { w.store with source := w.store.source ++ [row] } }
      match ParseBool isTrackingEnv with
      | none => .ret (some errEnvTracking, w1, trace)
      | some isTracking =>
        match CreateConnectionPool d isTracking source true w1.reg with
        | .panicked => .panicked
        | .ret (err, reg) => .ret (err, { w1 with reg := reg }, trace)

/-! ## Resolution (`v1/process/util/db/internal.go`, `v1/process/process.go`) -/

def errNotFoundApi : GoError := "Not found API (Please check if the API alias is correct)"

/-- The zero value `model.Api{QueryContent: model.QueryContent{}}`. -/
def Api.zero : Api := ⟨"", "", "", "", "", ⟨"", [], ""⟩, "", "", ""⟩

/-- `StructScan` of one row of the first query into `info`. -/
def scanApi (info : Api) (r : ApiRow) : Api :=
  { info with
    Uuid := toString r.api_id, SourceId := r.source_id, Name := r.api_name,
    Alias := r.api_alias, Type_ := r.api_type,
    QueryContent := { info.QueryContent with Syntax := r.syntaxText },
    RegDate := r.reg_date, ExpDate := r.exp_date, Status := r.status }

/-- `In_findApi(ctx, param)`: the definition, the error and the calls made. -/
def In_findApi (f : Faults) (param : String) (w : World) :
    Run (Api × Option GoError × List Event) :=
  let info := Api.zero
  match GetDatabase "internal" Key.nil w.reg with
  | .panicked => .panicked
  | .ret (_, some e) => .ret (info, some e, [.lookup "internal"])
  | .ret (_, none) =>
    let t1 : List Event := [.lookup "internal", .query qSelectApi [.str param]]
    match f.queryApi with
    | some e => .ret (info, some e, t1)
    | none =>
      let rows := w.store.api.filter (fun r => r.api_alias = param)
      match rows, f.scan with
      | _ :: _, some e => .ret (info, some e, t1)
      | _, _ =>
        let info1 := rows.foldl scanApi info
        match f.rowsErr with
        | some e => .ret (info1, some e, t1)
        | none =>
          if info1.Uuid = "" then .ret (info1, some errNotFoundApi, t1)
          else
            let t2 := t1 ++ [.query qSelectParameters [.str info1.Uuid]]
            match f.selectParams with
            | some e =>
              .ret ({ info1 with QueryContent := { info1.QueryContent with ParamsKey := [] } },
                some e, t2)
            | none =>
              let keys := (w.store.parameter.filter
                (fun p => toString p.api_id = info1.Uuid)).map (fun p => p.parameter_key)
              .ret ({ info1 with QueryContent := { info1.QueryContent with ParamsKey := keys } },
                none, t2)

/-- `GetApiInformation(ctx, tracking, param)`: the tracing subsegment aside, a
direct call of `In_findApi`. -/
def GetApiInformation (f : Faults) (_tracking : Bool) (param : String) (w : World) :
    Run (Api × Option GoError × List Event) :=
  In_findApi f param w

/-- The expiration text `GenerateApi` computes for an hour offset it accepts. -/
def expiresText (lib : TimeLib) (today : Time) (n : Int) : String :=
  lib.format (today.Add (if n = -1 then Hour * 2191500 else hoursDuration n))

/-- The rows of one registration as the specification lists them: the API row,
one parameter row per key in list order, and the de-identification row when
options were supplied, all carrying the key `id` of the API row. -/
def registrationRows (regDate : String) (api : Api) (expires : String) (id : Int) : List Write :=
  [Write.api ⟨id, api.SourceId, api.Name, api.Alias, api.Type_, api.QueryContent.Syntax,
      regDate, expires, "active"⟩]
    ++ api.QueryContent.ParamsKey.map (fun k => Write.parameter ⟨id, k⟩)
    ++ (if api.QueryContent.DidOptions ≠ "" then
          [Write.did_option ⟨id, api.QueryContent.DidOptions⟩]
        else [])

/-! ## Concrete inputs -/

/-- A driver whose every open and ping succeeds; handles are numbered by the
length of the connection string. -/
def Driver.healthy : Driver :=
  ⟨fun _ dsn => .ok dsn.length, fun _ dsn => .ok dsn.length, fun _ => none, fun _ => none⟩

/-- A driver that opens handles but whose pings fail. -/
def Driver.unreachable : Driver :=
  ⟨fun _ dsn => .ok dsn.length, fun _ dsn => .ok dsn.length,
   fun _ => some "dial tcp: connection refused", fun _ => some "dial tcp: connection refused"⟩

/-- The tenant source of the concrete scenario: identifier `T1`, dialect `mysql`. -/
def sourceT1 : Source := ⟨"T1", "sql", "mysql", "tenant_one", "user:pw@tcp(h:3306)/t1", ""⟩

/-- The control-plane source `createInternalConnectionPool` builds. -/
def sourceMain : Source := ⟨"", "sql", "mysql", "main_database", "user:pw@tcp(h:3306)/main", ""⟩

/-- A registry after `Initialization` with no tenant: the control-plane pool is
live and the tenant map is made and empty. -/
def Registry.started : Registry :=
  ⟨some [], ⟨"sql", "mysql", "main_database", false, some 24⟩⟩

/-- Days from 0001-01-01 to the given date of the proleptic Gregorian calendar. -/
def daysFromCivil (y m d : Int) : Int :=
  let y1 := if m ≤ 2 then y - 1 else y
  let era := y1 / 400
  let yoe := y1 - era * 400
  let doy := (153 * (if m > 2 then m - 3 else m + 9) + 2) / 5 + d - 1
  let doe := yoe * 365 + yoe / 4 - yoe / 100 + doy
  era * 146097 + doe - 306

/-- The date (year, month, day) that lies the given number of days after 0001-01-01. -/
def civilFromDays (z0 : Int) : Int × Int × Int :=
  let z := z0 + 306
  let era := z / 146097
  let doe := z - era * 146097
  let yoe := (doe - doe / 1460 + doe / 36524 - doe / 146096) / 365
  let doy := doe - (365 * yoe + yoe / 4 - yoe / 100)
  let mp := (5 * doy + 2) / 153
  let d := doy - (153 * mp + 2) / 5 + 1
  let m := if mp < 10 then mp + 3 else mp - 9
  let y := yoe + era * 400
  (if m ≤ 2 then y + 1 else y, m, d)

/-- The value of an ASCII digit. -/
def digit? (c : Char) : Option Int := if c.isDigit then some ((c.toNat : Int) - 48) else none

/-- The number a run of ASCII digits writes. -/
def num? (cs : List Char) : Option Int :=
  cs.foldl (fun acc c => match acc, digit? c with
    | some a, some d => some (10 * a + d)
    | _, _ => none) (some 0)

/-- Number of days of a month. -/
def daysIn (y m : Int) : Int :=
  if m = 2 then (if (y % 4 = 0 ∧ y % 100 ≠ 0) ∨ y % 400 = 0 then 29 else 28)
  else if m = 4 ∨ m = 6 ∨ m = 9 ∨ m = 11 then 30 else 31

/-- Reading a timestamp written in the layout `2006-01-02 15:04:05`, in UTC. -/
def parseUtc (s : String) : Except GoError Time :=
  match s.toList with
  | [y1, y2, y3, y4, '-', m1, m2, '-', d1, d2, ' ', h1, h2, ':', i1, i2, ':', s1, s2] =>
    match num? [y1, y2, y3, y4], num? [m1, m2], num? [d1, d2], num? [h1, h2], num? [i1, i2],
        num? [s1, s2] with
    | some y, some m, some d, some h, some i, some sec =>
      if 1 ≤ m ∧ m ≤ 12 ∧ 1 ≤ d ∧ d ≤ daysIn y m ∧ h < 24 ∧ i < 60 ∧ sec < 60 then
        .ok (((((daysFromCivil y m d) * 24 + h) * 60 + i) * 60 + sec) * 1000000000)
      else .error "parsing time: out of range"
    | _, _, _, _, _, _ => .error "parsing time: cannot parse"
  | _ => .error "parsing time: cannot parse"

/-- A number written with at least `w` digits. -/
def pad (w : Nat) (n : Int) : String :=
  let t := toString n.toNat
  String.mk (List.replicate (w - t.length) '0') ++ t

/-- Writing an instant in the layout `2006-01-02 15:04:05`, in UTC. -/
def formatUtc (t : Time) : String :=
  let secs := t / 1000000000
  let days := secs / 86400
  let rem := secs % 86400
  let (y, m, d) := civilFromDays days
  pad 4 y ++ "-" ++ pad 2 m ++ "-" ++ pad 2 d ++ " " ++ pad 2 (rem / 3600) ++ ":" ++
    pad 2 (rem % 3600 / 60) ++ ":" ++ pad 2 (rem % 60)

/-- The calendar functions of a process whose local zone is UTC. -/
def TimeLib.utc : TimeLib := ⟨parseUtc, formatUtc⟩

/-- The instant 2026-11-04 10:00:00 UTC. -/
def now0 : Time := 63929383200000000000

/-- A database that answers every call with success; it assigns the key 1 to a
new `api` row and the key `7` to a new `source` row. -/
def Faults.quiet : Faults :=
  { begin := none, execApi := .ok 1, lastInsertId := none, prepare := none,
    stmtExec := fun _ => none, execDid := none, commit := none, execSource := .ok "7",
    queryApi := none, scan := none, rowsErr := none, selectParams := none,
    regDate := "2026-11-04 10:00:00" }

/-- The API definition of the concrete scenario: alias `a_marketing_01` on source
`T1`, expiring in 24 hours, without parameters, with de-identification options. -/
def apiMarketing : Api :=
  { Uuid := "", SourceId := "T1", Name := "marketing", Alias := "a_marketing_01",
    Type_ := "export",
    QueryContent := ⟨"SELECT name FROM customer", [], "\x7b\"name\":\x7b\"level\":1\x7d\x7d"⟩,
    RegDate := "", ExpDate := "24", Status := "" }

/-- A started process with an empty control-plane database. -/
def World.started : World := ⟨Registry.started, Store.empty⟩

/-- A process in which `Initialization` has not run. -/
def World.fresh : World := ⟨Registry.initial, Store.empty⟩

/-- A definition like `apiMarketing` with one required parameter key, `region`,
and no de-identification options. -/
def apiWithKey : Api :=
  { apiMarketing with QueryContent := ⟨"SELECT name FROM customer WHERE region=?", ["region"], ""⟩ }

/-- A tenant source as a caller submits it for registration: storage has not yet
assigned its identifier, so `Uuid` is empty. -/
def sourceNew : Source := ⟨"", "sql", "mysql", "tenant_two", "user:pw@tcp(h:3306)/t2", ""⟩

/-! # Theorems -/

/-! ## Lemmas on maps -/

theorem GoMap.get_filter_ne {V : Type} (m : GoMap V) (k k' : String) (h : k' ≠ k) :
    GoMap.get (m.filter (fun e => !decide (e.1 = k))) k' = GoMap.get m k' := by
  induction m with
  | nil => rfl
  | cons e rest ih =>
    obtain ⟨a, v⟩ := e
    by_cases hak : a = k
    · subst hak
      have hne : ¬ a = k' := fun h2 => h h2.symm
      simp [List.filter, GoMap.get, hne, ih]
    · simp [List.filter, GoMap.get, hak, ih]

theorem GoMap.get_set_self {V : Type} (m : GoMap V) (k : String) (v : V) :
    (m.set k v).get k = some v := by
  simp [GoMap.set, GoMap.get]

theorem GoMap.get_set_ne {V : Type} (m : GoMap V) (k k' : String) (v : V) (h : k' ≠ k) :
    (m.set k v).get k' = m.get k' := by
  have hne : ¬ k = k' := fun h2 => h h2.symm
  simp only [GoMap.set, GoMap.get, hne, if_false]
  exact GoMap.get_filter_ne m k k' h

/-! ## The registry: create and look up -/

/-- C1: when `CreateConnectionPool` returns nil, the pool it built (category,
type and name of the source, the tracing flag, a live handle) is what the
matching lookup returns without error: `GetDatabase("external", source.Uuid)`
for a tenant pool, `GetDatabase("internal", nil)` for the control-plane pool,
whose single slot now holds it. -/
theorem C1_created_pool_is_found (d : Driver) (tracking isEx : Bool) (source : Source)
    (r r' : Registry)
    (h : CreateConnectionPool d tracking source isEx r = .ret (none, r')) :
    ∃ c : ConnInfo,
      c.Category = source.Category ∧ c.Type_ = source.Type_ ∧ c.Name = source.Name ∧
      c.Tracking = tracking ∧ c.Instance ≠ none ∧
      (if isEx then
        GetDatabase "external" (.str source.Uuid) r' = .ret (c, none) ∧ r'.gInDB = r.gInDB
       else
        GetDatabase "internal" Key.nil r' = .ret (c, none) ∧ r'.gInDB = c ∧
          r'.gExDB = r.gExDB) := by
  unfold CreateConnectionPool at h
  simp only at h
  split at h
  · simp at h
  · rename_i db _
    split at h
    · simp at h
    · cases isEx
      · simp only [Bool.false_eq_true, if_false, Run.ret.injEq, Prod.mk.injEq, true_and] at h
        subst h
        exact ⟨⟨source.Category, source.Type_, source.Name, tracking, some db⟩,
          rfl, rfl, rfl, rfl, by simp, by simp [GetDatabase]⟩
      · simp only [if_true] at h
        split at h
        · simp at h
        · rename_i m hm
          simp only [Run.ret.injEq, Prod.mk.injEq, true_and] at h
          subst h
          refine ⟨⟨source.Category, source.Type_, source.Name, tracking, some db⟩,
            rfl, rfl, rfl, rfl, by simp, ?_⟩
          simp [GetDatabase, GoMap.get_set_self]

/-- C1 at the concrete scenario: creating the tenant pool of `T1` (dialect
`mysql`) succeeds and the lookup of `T1` returns a pool whose dialect is `mysql`. -/
theorem C1_created_pool_is_found_witness :
    CreateConnectionPool Driver.healthy false sourceT1 true Registry.started
        = .ret (none, ⟨some [("T1", ⟨"sql", "mysql", "tenant_one", false, some 22⟩)],
                       Registry.started.gInDB⟩) ∧
    ∃ c : ConnInfo,
      c.Category = "sql" ∧ c.Type_ = "mysql" ∧ c.Name = "tenant_one" ∧
      c.Tracking = false ∧ c.Instance ≠ none ∧
      (if true then
        GetDatabase "external" (.str "T1")
            ⟨some [("T1", ⟨"sql", "mysql", "tenant_one", false, some 22⟩)],
             Registry.started.gInDB⟩ = .ret (c, none) ∧
          (⟨some [("T1", ⟨"sql", "mysql", "tenant_one", false, some 22⟩)],
             Registry.started.gInDB⟩ : Registry).gInDB = Registry.started.gInDB
       else
        GetDatabase "internal" Key.nil
            ⟨some [("T1", ⟨"sql", "mysql", "tenant_one", false, some 22⟩)],
             Registry.started.gInDB⟩ = .ret (c, none) ∧
          (⟨some [("T1", ⟨"sql", "mysql", "tenant_one", false, some 22⟩)],
             Registry.started.gInDB⟩ : Registry).gInDB = c ∧
          (⟨some [("T1", ⟨"sql", "mysql", "tenant_one", false, some 22⟩)],
             Registry.started.gInDB⟩ : Registry).gExDB = Registry.started.gExDB) :=
  ⟨by decide, C1_created_pool_is_found Driver.healthy false true sourceT1 Registry.started _
    (by decide)⟩

/-- C2: when opening the handle fails, or the handle opens and its ping fails,
`CreateConnectionPool` returns that error and the registry it leaves is the one
it found, for either pool class and whether or not the tenant map was made; so
every lookup answers as before. -/
theorem C2_failed_create_changes_nothing (d : Driver) (tracking isEx : Bool) (source : Source)
    (r : Registry) (e : GoError)
    (h : (if tracking then d.xraySQLContext source.Type_ source.RealDsn
            else d.sqlOpen source.Type_ source.RealDsn) = .error e ∨
         ∃ db, (if tracking then d.xraySQLContext source.Type_ source.RealDsn
            else d.sqlOpen source.Type_ source.RealDsn) = .ok db ∧
           (if tracking then d.pingContext db else d.ping db) = some e) :
    ∃ r' : Registry,
      CreateConnectionPool d tracking source isEx r = .ret (some e, r') ∧
      r'.gInDB = r.gInDB ∧ r'.gExDB = r.gExDB ∧ r' = r ∧
      ∀ connType key, GetDatabase connType key r' = GetDatabase connType key r := by
  refine ⟨r, ?_, rfl, rfl, rfl, fun _ _ => rfl⟩
  unfold CreateConnectionPool
  rcases h with h | ⟨db, h1, h2⟩
  · simp only [h]
  · simp only [h1, h2]

/-- C2 at a concrete input: the tenant database of `T1` does not answer the
ping, the error comes back and the started registry is untouched. -/
theorem C2_failed_create_changes_nothing_witness :
    ∃ r' : Registry,
      CreateConnectionPool Driver.unreachable true sourceT1 true Registry.started
        = .ret (some "dial tcp: connection refused", r') ∧
      r'.gInDB = Registry.started.gInDB ∧ r'.gExDB = Registry.started.gExDB ∧
      r' = Registry.started ∧
      ∀ connType key, GetDatabase connType key r' = GetDatabase connType key Registry.started :=
  C2_failed_create_changes_nothing Driver.unreachable true true sourceT1 Registry.started
    "dial tcp: connection refused" (Or.inr ⟨22, rfl, rfl⟩)

/-- C3: `GetDatabase("internal", key)` returns the control-plane slot whatever
the key is, with the error "No initialization was made for the database"
exactly when the slot's `Instance` is nil (as in a process that never stored a
control-plane pool) and with no error otherwise; `GetDatabase("external", k)`
for a string `k` returns the pool bound to `k` in the tenant map, or the zero
value with the different error "Invalid database key" when `k` is not bound.
`GetInternalDatabase` and `GetExternalDatabase` are these two lookups. -/
theorem C3_lookup_results (r : Registry) (key : Key) (k : String) :
    (GetDatabase "internal" key r
        = .ret (r.gInDB, if r.gInDB.Instance = none then some errNoInit else none)) ∧
    ((∃ c e, GetDatabase "internal" key r = .ret (c, some e)) ↔ r.gInDB.Instance = none) ∧
    Registry.initial.gInDB.Instance = none ∧
    (GetDatabase "external" (.str k) r
        = match (r.gExDB.getD []).get k with
          | some c => .ret (c, none)
          | none => .ret (ConnInfo.zero, some errInvalidKey)) ∧
    errInvalidKey ≠ errNoInit ∧
    GetInternalDatabase r = GetDatabase "internal" key r ∧
    GetExternalDatabase (.str k) r = GetDatabase "external" (.str k) r := by
  refine ⟨?_, ?_, rfl, ?_, by decide, ?_, rfl⟩
  · unfold GetDatabase
    by_cases hi : r.gInDB.Instance = none <;> simp [hi]
  · unfold GetDatabase
    by_cases hi : r.gInDB.Instance = none <;> simp [hi]
  · simp [GetDatabase]
  · simp only [GetInternalDatabase, GetDatabase, if_true]

/-! ## Alias format and resolution -/

theorem searchItems_bol_false (rest : List Re) (xs : List Char) :
    searchItems (Re.bol :: rest) false xs = false := by
  induction xs with
  | nil => simp [searchItems, matchItems]
  | cons x xs ih => simp [searchItems, matchItems, ih]

theorem compileRe_alias : compileRe "^a_+".toList = some [Re.bol, Re.lit 'a', Re.plus '_'] := by
  decide

theorem matchItems_alias (s : List Char) :
    matchItems [Re.bol, Re.lit 'a', Re.plus '_'] true s = true ↔ "a_".toList <+: s := by
  have hp : "a_".toList = ['a', '_'] := by decide
  rw [hp]
  cases s with
  | nil => simp [matchItems]
  | cons x xs =>
    cases xs with
    | nil => simp [matchItems]
    | cons y ys =>
      simp only [matchItems, Bool.true_and, Bool.or_true, Bool.and_true, Bool.and_eq_true,
        beq_iff_eq]
      constructor
      · rintro ⟨rfl, rfl⟩
        exact ⟨ys, rfl⟩
      · rintro ⟨t, ht⟩
        simp only [List.cons_append, List.nil_append, List.cons.injEq] at ht
        exact ⟨ht.1.symm, ht.2.1.symm⟩

/-- The alias check accepts exactly the strings that begin with `a_`. -/
theorem VerifyApiAliasFormat_eq (alias_ : String) :
    VerifyApiAliasFormat alias_
      = if "a_".toList <+: alias_.toList then none else some errInvalidAlias := by
  unfold VerifyApiAliasFormat regexpMatchString
  rw [compileRe_alias]
  have hs : searchItems [Re.bol, Re.lit 'a', Re.plus '_'] true alias_.toList
      = matchItems [Re.bol, Re.lit 'a', Re.plus '_'] true alias_.toList := by
    cases h : alias_.toList with
    | nil => simp [searchItems]
    | cons x xs => simp [searchItems, searchItems_bol_false]
  simp only [hs]
  by_cases hpre : "a_".toList <+: alias_.toList
  · rw [if_pos hpre, (matchItems_alias _).2 hpre]
  · rw [if_neg hpre]
    have : matchItems [Re.bol, Re.lit 'a', Re.plus '_'] true alias_.toList = false := by
      cases hm : matchItems [Re.bol, Re.lit 'a', Re.plus '_'] true alias_.toList with
      | false => rfl
      | true => exact absurd ((matchItems_alias _).1 hm) hpre
    rw [this]

/-- C4, as the code has it: `GetApiInformation` makes no format check. For an
alias that does not begin with `a_` the format error is what
`VerifyApiAliasFormat` returns (a function of the alias alone, called by
`ExtractApiAliasOnEcho` and `ExtractApiAliasOnLambda`), while
`GetApiInformation` is `In_findApi`: it always looks up the control-plane pool
first, returns the lookup's error when no pool is stored, and otherwise queries
the `api` table with the alias as given. -/
theorem C4_resolve_makes_no_format_check (f : Faults) (tracking : Bool) (alias_ : String)
    (w : World) (h : ¬ "a_".toList <+: alias_.toList) :
    VerifyApiAliasFormat alias_ = some errInvalidAlias ∧
    GetApiInformation f tracking alias_ w = In_findApi f alias_ w ∧
    ∃ info err rest,
      GetApiInformation f tracking alias_ w = .ret (info, err, Event.lookup "internal" :: rest) ∧
      (w.reg.gInDB.Instance = none → err = some errNoInit ∧ rest = []) ∧
      (w.reg.gInDB.Instance ≠ none →
        ∃ more, rest = Event.query qSelectApi [.str alias_] :: more) := by
  refine ⟨by rw [VerifyApiAliasFormat_eq, if_neg h], rfl, ?_⟩
  unfold GetApiInformation In_findApi GetDatabase
  by_cases hi : w.reg.gInDB.Instance = none
  · simp [hi]
  · simp only [if_true, hi, if_false]
    cases hq : f.queryApi with
    | some e => exact ⟨_, _, _, rfl, fun h0 => h0.elim, fun _ => ⟨_, rfl⟩⟩
    | none =>
      simp only
      split
      · exact ⟨_, _, _, rfl, fun h0 => h0.elim, fun _ => ⟨_, rfl⟩⟩
      · cases hr : f.rowsErr with
        | some e => exact ⟨_, _, _, rfl, fun h0 => h0.elim, fun _ => ⟨_, rfl⟩⟩
        | none =>
          simp only
          split
          · exact ⟨_, _, _, rfl, fun h0 => h0.elim, fun _ => ⟨_, rfl⟩⟩
          · cases hsel : f.selectParams <;>
              exact ⟨_, _, _, rfl, fun h0 => h0.elim, fun _ => ⟨_, rfl⟩⟩

/-- C4 at the alias `bad_alias`. -/
theorem C4_resolve_makes_no_format_check_witness :
    VerifyApiAliasFormat "bad_alias" = some errInvalidAlias ∧
    GetApiInformation Faults.quiet false "bad_alias" World.started
      = In_findApi Faults.quiet "bad_alias" World.started ∧
    ∃ info err rest,
      GetApiInformation Faults.quiet false "bad_alias" World.started
        = .ret (info, err, Event.lookup "internal" :: rest) ∧
      (World.started.reg.gInDB.Instance = none → err = some errNoInit ∧ rest = []) ∧
      (World.started.reg.gInDB.Instance ≠ none →
        ∃ more, rest = Event.query qSelectApi [.str "bad_alias"] :: more) :=
  C4_resolve_makes_no_format_check Faults.quiet false "bad_alias" World.started (by decide)

/-- C4 as stated fails: `bad_alias` does not begin with `a_`, yet resolving it in
a started process looks up the control-plane pool and queries the `api` table,
and the error it returns is "Not found API", not the format error. -/
theorem C4_counterexample :
    ¬ ("a_".toList <+: "bad_alias".toList) ∧
    GetApiInformation Faults.quiet false "bad_alias" World.started
      = .ret (Api.zero, some errNotFoundApi,
          [Event.lookup "internal", Event.query qSelectApi [.str "bad_alias"]]) ∧
    errNotFoundApi ≠ errInvalidAlias := by
  decide

/-! ## Expiration and status -/

/-- C5: for a date that parses to the instant `t`, `VerifyExpires` returns "This
API has expired" exactly when `t` is strictly before `now` (so not when
`t = now`); when not expired it returns "This API is not avaliable" exactly when
the status is `disabled`, and nil otherwise; an expired and disabled definition
reports expired. -/
theorem C5_expired_then_disabled (lib : TimeLib) (now t : Time) (tracking : Bool)
    (date status : String) (h : lib.parse date = .ok t) :
    VerifyExpires lib now tracking date status
      = (if t < now then some errExpired
         else if status = "disabled" then some errDisabled else none) ∧
    (VerifyExpires lib now tracking date status = some errExpired ↔ t < now) ∧
    (t = now → VerifyExpires lib now tracking date status ≠ some errExpired) ∧
    (¬ t < now →
      (VerifyExpires lib now tracking date status = some errDisabled ↔ status = "disabled")) ∧
    (¬ t < now → status ≠ "disabled" → VerifyExpires lib now tracking date status = none) ∧
    (t < now → status = "disabled" →
      VerifyExpires lib now tracking date status = some errExpired) := by
  have hne : errDisabled ≠ errExpired := by decide
  have hmain : VerifyExpires lib now tracking date status
      = (if t < now then some errExpired
         else if status = "disabled" then some errDisabled else none) := by
    simp [VerifyExpires, h, Time.Before]
  rw [hmain]
  refine ⟨rfl, ?_, ?_, ?_, ?_, ?_⟩
  · by_cases h1 : t < now
    · simp [h1]
    · by_cases h2 : status = "disabled" <;> simp [h1, h2, hne]
  · intro h1
    simp only [h1, lt_irrefl, if_false]
    by_cases h2 : status = "disabled" <;> simp [h2, hne]
  · intro h1
    by_cases h2 : status = "disabled" <;> simp [h1, h2]
  · intro h1 h2
    simp [h1, h2]
  · intro h1 _
    simp [h1]

/-- C5 at the boundary: a definition whose expiration date is the current
instant, 2026-11-04 10:00:00, and whose status is `disabled`. -/
theorem C5_expired_then_disabled_witness :
    VerifyExpires TimeLib.utc now0 false "2026-11-04 10:00:00" "disabled"
      = (if now0 < now0 then some errExpired
         else if "disabled" = "disabled" then some errDisabled else none) ∧
    (VerifyExpires TimeLib.utc now0 false "2026-11-04 10:00:00" "disabled" = some errExpired
      ↔ now0 < now0) ∧
    (now0 = now0 →
      VerifyExpires TimeLib.utc now0 false "2026-11-04 10:00:00" "disabled" ≠ some errExpired) ∧
    (¬ now0 < now0 →
      (VerifyExpires TimeLib.utc now0 false "2026-11-04 10:00:00" "disabled" = some errDisabled
        ↔ "disabled" = "disabled")) ∧
    (¬ now0 < now0 → "disabled" ≠ "disabled" →
      VerifyExpires TimeLib.utc now0 false "2026-11-04 10:00:00" "disabled" = none) ∧
    (now0 < now0 → "disabled" = "disabled" →
      VerifyExpires TimeLib.utc now0 false "2026-11-04 10:00:00" "disabled" = some errExpired) :=
  C5_expired_then_disabled TimeLib.utc now0 now0 false "2026-11-04 10:00:00" "disabled"
    (by rfl)

/-! ## Registration of an API definition -/

theorem placeholders_insertApi : placeholders qInsertApi = 6 := by decide

theorem placeholders_insertParameter : placeholders qInsertParameter = 2 := by decide

theorem placeholders_insertDidOption : placeholders qInsertDidOption = 2 := by decide

theorem qInsertParameter_ne_api : qInsertParameter ≠ qInsertApi := by decide

theorem qInsertDidOption_ne_api : qInsertDidOption ≠ qInsertApi := by decide

theorem qInsertDidOption_ne_parameter : qInsertDidOption ≠ qInsertParameter := by decide

/-- The insert of the API row binds all six placeholders. -/
theorem Session.exec_api (s : Session) (regDate : String) (answer : Except GoError Int)
    (a b c d e g : String) (hs : s.status = .active) :
    s.exec regDate answer qInsertApi [.str a, .str b, .str c, .str d, .str e, .str g]
      = match answer with
        | .error err =>
          (.error err, { s with trace := s.trace ++
            [.exec qInsertApi [.str a, .str b, .str c, .str d, .str e, .str g]] })
        | .ok id =>
          (.ok id, { s with
            trace := s.trace ++
              [.exec qInsertApi [.str a, .str b, .str c, .str d, .str e, .str g]],
            pending := s.pending ++ [.api ⟨id, a, b, c, d, e, regDate, g, "active"⟩] }) := by
  cases answer <;>
    simp [Session.exec, Session.run, hs, checkArgs, placeholders_insertApi, decodeInsert]

/-- The insert of the de-identification row binds both placeholders. -/
theorem Session.exec_did (s : Session) (regDate : String) (answer : Except GoError Int)
    (i : Int) (o : String) (hs : s.status = .active) :
    s.exec regDate answer qInsertDidOption [.int i, .str o]
      = match answer with
        | .error err =>
          (.error err, { s with trace := s.trace ++
            [.exec qInsertDidOption [.int i, .str o]] })
        | .ok id =>
          (.ok id, { s with
            trace := s.trace ++ [.exec qInsertDidOption [.int i, .str o]],
            pending := s.pending ++ [.did_option ⟨i, o⟩] }) := by
  cases answer <;>
    simp [Session.exec, Session.run, hs, checkArgs, placeholders_insertDidOption, decodeInsert,
      qInsertDidOption_ne_api, qInsertDidOption_ne_parameter]

/-- Executing the prepared parameter insert with the key alone is refused by the
argument-count check, whatever the database would answer. -/
theorem Session.stmtExec_key_only (s : Session) (regDate : String) (answer : Option GoError)
    (k : String) (hs : s.status = .active) :
    s.stmtExec regDate answer qInsertParameter [.str k]
      = (some "sql: expected 2 arguments, got 1",
         { s with trace := s.trace ++ [.stmtExec qInsertParameter [.str k]] }) := by
  have hmsg : "sql: expected " ++ toString 2 ++ " arguments, got " ++ toString 1
      = "sql: expected 2 arguments, got 1" := by decide
  simp [Session.stmtExec, Session.run, hs, checkArgs, placeholders_insertParameter, hmsg]

/-- The parameter loop stops at its first key. -/
theorem execParams_cons (f : Faults) (s : Session) (i : Nat) (k : String) (rest : List String)
    (hs : s.status = .active) :
    execParams f s i (k :: rest)
      = (some "sql: expected 2 arguments, got 1",
         { s with trace := s.trace ++ [.stmtExec qInsertParameter [.str k]] }) := by
  rw [execParams, Session.stmtExec_key_only s f.regDate (f.stmtExec i) k hs]

theorem Session.run_trace (s : Session) (regDate : String) (answer : Except GoError Int)
    (q : String) (args : List SqlArg) : (s.run regDate answer q args).2.trace = s.trace := by
  unfold Session.run
  split
  · rfl
  · split
    · rfl
    · split
      · rfl
      · split <;> rfl

theorem Session.exec_trace (s : Session) (regDate : String) (answer : Except GoError Int)
    (q : String) (args : List SqlArg) :
    (s.exec regDate answer q args).2.trace = s.trace ++ [.exec q args] := by
  simp [Session.exec, Session.run_trace]

theorem Session.stmtExec_trace (s : Session) (regDate : String) (answer : Option GoError)
    (q : String) (args : List SqlArg) :
    (s.stmtExec regDate answer q args).2.trace = s.trace ++ [.stmtExec q args] := by
  simp [Session.stmtExec, Session.run_trace]

theorem Session.commit_trace (s : Session) (answer : Option GoError) :
    (s.commit answer).2.trace = s.trace ++ [.commit] := by
  unfold Session.commit
  split
  · rfl
  · split <;> rfl

theorem Session.rollback_trace (s : Session) :
    (s.rollback).2.trace = s.trace ++ [.rollback] := by
  unfold Session.rollback
  split <;> rfl

/-- The calls already made stay at the front of the trace through the parameter loop. -/
theorem execParams_trace (f : Faults) (keys : List String) :
    ∀ (s : Session) (i : Nat), s.trace <+: (execParams f s i keys).2.trace := by
  induction keys with
  | nil => intro s i; simp [execParams]
  | cons k rest ih =>
    intro s i
    rw [execParams]
    have ht := Session.stmtExec_trace s f.regDate (f.stmtExec i) qInsertParameter [.str k]
    generalize s.stmtExec f.regDate (f.stmtExec i) qInsertParameter [.str k] = r at ht
    obtain ⟨e, s1⟩ := r
    cases e with
    | some e => simp only at ht ⊢; rw [ht]; exact List.prefix_append _ _
    | none =>
      simp only at ht ⊢
      exact List.IsPrefix.trans (by rw [ht]; exact List.prefix_append _ _) (ih s1 (i + 1))

theorem GenerateApi.insertParams_trace (f : Faults) (api : Api) (s2 : Session) :
    s2.trace <+: (GenerateApi.insertParams f api s2).2.trace := by
  unfold GenerateApi.insertParams
  split
  · have p3 : s2.trace <+: s2.trace ++ [Event.prepare qInsertParameter] :=
      List.prefix_append _ _
    cases f.prepare with
    | some e => exact p3
    | none =>
      exact p3.trans (execParams_trace f api.QueryContent.ParamsKey
        { s2 with trace := s2.trace ++ [Event.prepare qInsertParameter] } 0)
  · exact List.prefix_refl _

theorem GenerateApi.insertDid_trace (f : Faults) (api : Api) (i : Int) (s4 : Session) :
    s4.trace <+: (GenerateApi.insertDid f api i s4).2.trace := by
  unfold GenerateApi.insertDid
  split
  · simp only [Session.exec_trace]
    exact List.prefix_append _ _
  · exact List.prefix_refl _

/-- The calls already made stay at the front of the trace through the body of
`GenerateApi`. -/
theorem GenerateApi.body_trace (f : Faults) (api : Api) (expires : String) (s0 : Session) :
    s0.trace <+: (GenerateApi.body f api expires s0).2.trace := by
  unfold GenerateApi.body
  have h1 := Session.exec_trace s0 f.regDate f.execApi qInsertApi
    [.str api.SourceId, .str api.Name, .str api.Alias, .str api.Type_,
     .str api.QueryContent.Syntax, .str expires]
  generalize s0.exec f.regDate f.execApi qInsertApi
    [.str api.SourceId, .str api.Name, .str api.Alias, .str api.Type_,
     .str api.QueryContent.Syntax, .str expires] = r1 at h1
  obtain ⟨e1, s1⟩ := r1
  simp only at h1
  have p1 : s0.trace <+: s1.trace := by rw [h1]; exact List.prefix_append _ _
  cases e1 with
  | error e => exact p1
  | ok id =>
    simp only
    have p2 : s0.trace <+: (s1.trace ++ [Event.lastInsertId]) :=
      p1.trans (List.prefix_append _ _)
    cases f.lastInsertId with
    | some e => exact p2
    | none =>
      simp only
      have pA := p2.trans (GenerateApi.insertParams_trace f api
        { s1 with trace := s1.trace ++ [Event.lastInsertId] })
      generalize GenerateApi.insertParams f api
        { s1 with trace := s1.trace ++ [Event.lastInsertId] } = rA at pA
      obtain ⟨eA, s4⟩ := rA
      cases eA with
      | some e => exact pA
      | none =>
        simp only at pA ⊢
        have pD := pA.trans (GenerateApi.insertDid_trace f api id s4)
        generalize GenerateApi.insertDid f api id s4 = rD at pD
        obtain ⟨eD, s5⟩ := rD
        cases eD with
        | some e => exact pD
        | none =>
          simp only at pD ⊢
          rw [Session.commit_trace]
          exact pD.trans (List.prefix_append _ _)

theorem ParseInt_blank : ParseInt "" = none := by decide

/-- An accepted hour offset yields the expiration text. -/
theorem expiresOf_valid (lib : TimeLib) (today : Time) (expDate : String) (n : Int)
    (hn : ParseInt expDate = some n) (hv : n = -1 ∨ 0 < n) :
    expiresOf lib today expDate = .ok (expiresText lib today n) := by
  have hne : expDate ≠ "" := by
    intro h0
    rw [h0, ParseInt_blank] at hn
    exact absurd hn (by simp)
  unfold expiresOf expiresText
  rw [if_pos hne, hn]
  rcases hv with h1 | h1
  · simp [h1]
  · have h2 : n ≠ -1 := by omega
    simp [h1, h2]

/-- C6: once the transaction of `GenerateApi` has begun (valid expiry, a stored
control-plane pool, `Begin` succeeded), the call returns, and its transaction
ends committed or rolled back. Whenever it returns an error the transaction is
rolled back and the committed tables are those before the call; the error is
the one of the failing step (API-row insert, reading the inserted id, preparing
or executing the parameter insert, de-identification insert, commit). When it
returns nil the transaction is committed and the tables have gained the API
row, all parameter rows and the optional de-identification row together. -/
theorem C6_registration_is_atomic (lib : TimeLib) (f : Faults) (today : Time) (tracking : Bool)
    (api : Api) (w : World) (n : Int)
    (hn : ParseInt api.ExpDate = some n) (hv : n = -1 ∨ 0 < n)
    (hpool : w.reg.gInDB.Instance ≠ none) (hbegin : f.begin = none) :
    ∃ o : Outcome,
      GenerateApi lib f today tracking api w = .ret o ∧
      (o.tx = some .committed ∨ o.tx = some .rolledBack) ∧
      (∀ e, o.err = some e → o.tx = some .rolledBack ∧ o.store = w.store) ∧
      (o.err = none → o.tx = some .committed ∧
        ∃ id, f.execApi = .ok id ∧
          o.store = w.store.applyAll
            (registrationRows f.regDate api (expiresText lib today n) id)) ∧
      (∀ e, f.execApi = .error e → o.err = some e) ∧
      (∀ id e, f.execApi = .ok id → f.lastInsertId = some e → o.err = some e) ∧
      (∀ id e, f.execApi = .ok id → f.lastInsertId = none →
        api.QueryContent.ParamsKey ≠ [] → f.prepare = some e → o.err = some e) ∧
      (∀ id, f.execApi = .ok id → f.lastInsertId = none →
        api.QueryContent.ParamsKey ≠ [] → f.prepare = none → o.err ≠ none) ∧
      (∀ id e, f.execApi = .ok id → f.lastInsertId = none →
        api.QueryContent.ParamsKey = [] → api.QueryContent.DidOptions ≠ "" →
        f.execDid = some e → o.err = some e) ∧
      (∀ id, f.execApi = .ok id → f.lastInsertId = none →
        api.QueryContent.ParamsKey = [] →
        (api.QueryContent.DidOptions ≠ "" → f.execDid = none) → o.err = f.commit) := by
  have hexp := expiresOf_valid lib today api.ExpDate n hn hv
  simp only [GenerateApi, hexp, GetDatabase, if_true, hpool, if_false, hbegin]
  refine ⟨_, rfl, ?_⟩
  simp only [GenerateApi.body]
  rw [Session.exec_api _ _ _ _ _ _ _ _ _ rfl]
  cases hA : f.execApi with
  | error e => simp [Session.rollback]
  | ok id =>
    cases hL : f.lastInsertId with
    | some e => simp [Session.rollback]
    | none =>
      simp only [GenerateApi.insertParams, GenerateApi.insertDid]
      cases hP : api.QueryContent.ParamsKey with
      | cons k rest =>
        cases hPr : f.prepare with
        | some e => simp [Session.rollback]
        | none => simp [Session.rollback, execParams_cons]
      | nil =>
        by_cases hD : api.QueryContent.DidOptions = ""
        · cases hC : f.commit <;>
            simp [hD, Session.commit, Session.rollback, registrationRows, hP,
              Store.applyAll, Store.apply]
        · simp only [List.length_nil, gt_iff_lt, lt_irrefl, if_false, ne_eq, hD,
            not_false_eq_true, if_true]
          rw [Session.exec_did _ _ _ _ _ rfl]
          cases hE : f.execDid with
          | some e => simp [Session.rollback]
          | none =>
            cases hC : f.commit <;>
              simp [hD, Session.commit, Session.rollback, registrationRows, hP,
                Store.applyAll, Store.apply]

set_option maxRecDepth 100000 in
/-- C6 at the concrete scenario: `a_marketing_01` on `T1`, expiring in 24 hours,
registered in a started process whose database answers every call: the API row
and the de-identification row are committed together. -/
theorem C6_registration_is_atomic_witness :
    GenerateApi TimeLib.utc Faults.quiet now0 false apiMarketing World.started
      = .ret ⟨none,
          { Store.empty with
            api := [⟨1, "T1", "marketing", "a_marketing_01", "export",
                     "SELECT name FROM customer", "2026-11-04 10:00:00",
                     "2026-11-05 10:00:00", "active"⟩],
            did_option := [⟨1, apiMarketing.QueryContent.DidOptions⟩] },
          [.lookup "internal", .begin,
           .exec qInsertApi [.str "T1", .str "marketing", .str "a_marketing_01", .str "export",
             .str "SELECT name FROM customer", .str "2026-11-05 10:00:00"],
           .lastInsertId,
           .exec qInsertDidOption [.int 1, .str apiMarketing.QueryContent.DidOptions],
           .commit, .rollback],
          some .committed⟩ ∧
    ∃ o : Outcome,
      GenerateApi TimeLib.utc Faults.quiet now0 false apiMarketing World.started = .ret o ∧
      (o.tx = some .committed ∨ o.tx = some .rolledBack) ∧
      (∀ e, o.err = some e → o.tx = some .rolledBack ∧ o.store = World.started.store) :=
  ⟨by decide,
   (C6_registration_is_atomic TimeLib.utc Faults.quiet now0 false apiMarketing World.started 24
      (by decide) (by decide) (by decide) rfl).imp (fun _ h => ⟨h.1, h.2.1, h.2.2.1⟩)⟩

set_option maxRecDepth 100000 in
/-- C7, the code at a definition with at least one parameter key (here with a
database that would accept every call): the prepared statement
`INSERT INTO parameter (api_id, parameter_key) VALUE (?, ?)` is executed once,
with the first key as its only argument; the id of the API row is not bound,
the execution is refused for its argument count, the call returns that error
and the registration is rolled back, so no parameter row is ever stored. -/
theorem C7_parameter_insert_passes_key_only (answer : Nat → Option GoError) (k : String)
    (rest : List String) :
    GenerateApi TimeLib.utc { Faults.quiet with stmtExec := answer } now0 false
        { apiWithKey with
          QueryContent := { apiWithKey.QueryContent with ParamsKey := k :: rest } }
        World.started
      = .ret ⟨some "sql: expected 2 arguments, got 1", Store.empty,
          [.lookup "internal", .begin,
           .exec qInsertApi [.str "T1", .str "marketing", .str "a_marketing_01", .str "export",
             .str "SELECT name FROM customer WHERE region=?", .str "2026-11-05 10:00:00"],
           .lastInsertId, .prepare qInsertParameter,
           .stmtExec qInsertParameter [.str k], .rollback],
          some .rolledBack⟩ := by
  have hexp : expiresOf TimeLib.utc now0 "24" = .ok "2026-11-05 10:00:00" := by rfl
  have hpool : World.started.reg.gInDB.Instance ≠ none := by decide
  simp only [GenerateApi, apiWithKey, apiMarketing, hexp, GetDatabase, if_true, hpool, if_false,
    Faults.quiet, GenerateApi.body]
  rw [Session.exec_api _ _ _ _ _ _ _ _ _ rfl]
  simp [GenerateApi.insertParams, Session.rollback, execParams_cons, World.started, Store.empty]

set_option maxRecDepth 100000 in
/-- C8, the code at the hour offset `2562048`: the offset parses and is positive,
the product `time.Hour * time.Duration(2562048)` wraps to
-9223371273709551616 nanoseconds, so the expiration written is about 292 years
before the current time (2562047 is the largest offset whose product does not
wrap). Registered at 2026-11-04 10:00:00 the API row is committed with
`exp_date` 1734-07-26 10:25:26. -/
theorem C8_offset_overflow_expires_in_the_past (lib : TimeLib) (today : Time) :
    ParseInt "2562048" = some 2562048 ∧
    hoursDuration 2562048 = -9223371273709551616 ∧
    expiresOf lib today "2562048" = .ok (lib.format (today - 9223371273709551616)) ∧
    Time.Before (today - 9223371273709551616) today = true ∧
    hoursDuration 2562047 = Hour * 2562047 ∧
    GenerateApi TimeLib.utc Faults.quiet now0 false { apiMarketing with ExpDate := "2562048" }
        World.started
      = .ret ⟨none,
          { Store.empty with
            api := [⟨1, "T1", "marketing", "a_marketing_01", "export",
                     "SELECT name FROM customer", "2026-11-04 10:00:00",
                     "1734-07-26 10:25:26", "active"⟩],
            did_option := [⟨1, apiMarketing.QueryContent.DidOptions⟩] },
          [.lookup "internal", .begin,
           .exec qInsertApi [.str "T1", .str "marketing", .str "a_marketing_01", .str "export",
             .str "SELECT name FROM customer", .str "1734-07-26 10:25:26"],
           .lastInsertId,
           .exec qInsertDidOption [.int 1, .str apiMarketing.QueryContent.DidOptions],
           .commit, .rollback],
          some .committed⟩ := by
  have hp : ParseInt "2562048" = some 2562048 := by decide
  have hd : hoursDuration 2562048 = -9223371273709551616 := by decide
  refine ⟨hp, hd, ?_, ?_, by decide, by decide⟩
  · rw [expiresOf_valid lib today "2562048" 2562048 hp (Or.inr (by decide))]
    have h1 : (2562048 : Int) ≠ -1 := by decide
    simp only [expiresText, h1, if_false, hd, Time.Add]
    rfl
  · simp [Time.Before]

/-- C9: `GenerateApi` returns before any call to the registry or the database,
leaving the tables as they were, exactly when the expiry is blank ("Invalid
expires (can not be blank)"), is not a base-10 64-bit integer ("Invalid expires
format (expiration unit is hour)"), or is an integer at most zero other than -1
("Invalid expires (Expiration date can't be earlier than the current time)");
for -1 and for every positive integer the expiry block yields a timestamp and
the first thing the call does next is the lookup of the control-plane pool. -/
theorem C9_expiry_checked_before_storage (lib : TimeLib) (f : Faults) (today : Time)
    (tracking : Bool) (api : Api) (w : World) :
    (api.ExpDate = "" →
      GenerateApi lib f today tracking api w = .ret ⟨some errExpiresBlank, w.store, [], none⟩) ∧
    (api.ExpDate ≠ "" → ParseInt api.ExpDate = none →
      GenerateApi lib f today tracking api w = .ret ⟨some errExpiresFormat, w.store, [], none⟩) ∧
    (∀ n, ParseInt api.ExpDate = some n → n ≠ -1 → n ≤ 0 →
      GenerateApi lib f today tracking api w
        = .ret ⟨some errExpiresEarlier, w.store, [], none⟩) ∧
    (∀ n, ParseInt api.ExpDate = some n → (n = -1 ∨ 0 < n) →
      expiresOf lib today api.ExpDate = .ok (expiresText lib today n) ∧
      ∃ o rest, GenerateApi lib f today tracking api w = .ret o ∧
        o.trace = Event.lookup "internal" :: rest) ∧
    ((∃ o, GenerateApi lib f today tracking api w = .ret o ∧ o.trace = []) ↔
      (api.ExpDate = "" ∨ ParseInt api.ExpDate = none ∨
        ∃ n, ParseInt api.ExpDate = some n ∧ n ≠ -1 ∧ n ≤ 0)) ∧
    errExpiresBlank ≠ errExpiresFormat ∧ errExpiresBlank ≠ errExpiresEarlier ∧
    errExpiresFormat ≠ errExpiresEarlier := by
  have hblank : api.ExpDate = "" →
      GenerateApi lib f today tracking api w
        = .ret ⟨some errExpiresBlank, w.store, [], none⟩ := by
    intro h
    simp [GenerateApi, expiresOf, h]
  have hformat : api.ExpDate ≠ "" → ParseInt api.ExpDate = none →
      GenerateApi lib f today tracking api w
        = .ret ⟨some errExpiresFormat, w.store, [], none⟩ := by
    intro h h2
    simp [GenerateApi, expiresOf, h, h2]
  have hearly : ∀ n, ParseInt api.ExpDate = some n → n ≠ -1 → n ≤ 0 →
      GenerateApi lib f today tracking api w
        = .ret ⟨some errExpiresEarlier, w.store, [], none⟩ := by
    intro n h h1 h2
    have hne : api.ExpDate ≠ "" := by
      intro h0
      rw [h0, ParseInt_blank] at h
      exact absurd h (by simp)
    have h3 : ¬ n > 0 := by omega
    simp [GenerateApi, expiresOf, h, hne, h1, h3]
  have hgo : ∀ n, ParseInt api.ExpDate = some n → (n = -1 ∨ 0 < n) →
      expiresOf lib today api.ExpDate = .ok (expiresText lib today n) ∧
      ∃ o rest, GenerateApi lib f today tracking api w = .ret o ∧
        o.trace = Event.lookup "internal" :: rest := by
    intro n h hv
    have hexp := expiresOf_valid lib today api.ExpDate n h hv
    refine ⟨hexp, ?_⟩
    simp only [GenerateApi, hexp, GetDatabase, if_true]
    by_cases hi : w.reg.gInDB.Instance = none
    · simp only [hi, if_true]
      exact ⟨_, _, rfl, rfl⟩
    · simp only [hi, if_false]
      cases hb : f.begin with
      | some e => exact ⟨_, _, rfl, rfl⟩
      | none =>
        obtain ⟨t, ht⟩ := (GenerateApi.body_trace f api (expiresText lib today n)
          ⟨w.store, [], .active, [.lookup "internal", .begin]⟩).trans
          (List.prefix_append _ [Event.rollback])
        refine ⟨_, Event.begin :: t, rfl, ?_⟩
        simp only [Session.rollback_trace]
        rw [← ht]
        rfl
  refine ⟨hblank, hformat, hearly, hgo, ?_, by decide, by decide, by decide⟩
  constructor
  · rintro ⟨o, ho, htr⟩
    by_cases hb : api.ExpDate = ""
    · exact Or.inl hb
    · cases hp : ParseInt api.ExpDate with
      | none => exact Or.inr (Or.inl rfl)
      | some n =>
        by_cases hv : n = -1 ∨ 0 < n
        · obtain ⟨_, o2, rest, ho2, htr2⟩ := hgo n hp hv
          rw [ho] at ho2
          cases ho2
          rw [htr] at htr2
          exact absurd htr2 (by simp)
        · refine Or.inr (Or.inr ⟨n, rfl, ?_, ?_⟩) <;> omega
  · rintro (hb | hp | ⟨n, hp, h1, h2⟩)
    · exact ⟨_, hblank hb, rfl⟩
    · by_cases hb : api.ExpDate = ""
      · exact ⟨_, hblank hb, rfl⟩
      · exact ⟨_, hformat hb hp, rfl⟩
    · exact ⟨_, hearly n hp h1 h2, rfl⟩

set_option maxRecDepth 100000 in
/-- C9 at the hour offset `0`: rejected with no call made. -/
theorem C9_expiry_checked_before_storage_witness :
    GenerateApi TimeLib.utc Faults.quiet now0 false { apiMarketing with ExpDate := "0" }
        World.started
      = .ret ⟨some errExpiresEarlier, Store.empty, [], none⟩ :=
  (C9_expiry_checked_before_storage TimeLib.utc Faults.quiet now0 false
    { apiMarketing with ExpDate := "0" } World.started).2.2.1 0 (by decide) (by decide)
    (by decide)

/-! ## Registration of a tenant source -/

set_option maxRecDepth 100000 in
/-- C10, the code at a new tenant source (submitted with an empty `Uuid`, as
storage has yet to assign its identifier) in a started process; storage assigns
the inserted row the `source_id` 7. `GenerateSource` returns nil, the row is
stored under `source_id` 7, and the pool is put into the tenant map under the
submitted `Uuid`, the empty string: the lookup of `7` fails with "Invalid
database key". -/
theorem C10_pool_keyed_by_submitted_uuid :
    GenerateSource Driver.healthy Faults.quiet "false" false sourceNew World.started
      = .ret (none,
          ⟨⟨some [("", ⟨"sql", "mysql", "tenant_two", false, some 22⟩)],
            Registry.started.gInDB⟩,
           { Store.empty with
             source := [⟨"7", "sql", "mysql", "tenant_two", "user:pw@tcp(h:3306)/t2", ""⟩] }⟩,
          [.lookup "internal", .namedExec qInsertSource]) ∧
    GetDatabase "external" (.str "7")
        ⟨some [("", ⟨"sql", "mysql", "tenant_two", false, some 22⟩)], Registry.started.gInDB⟩
      = .ret (ConnInfo.zero, some errInvalidKey) ∧
    GetDatabase "external" (.str "")
        ⟨some [("", ⟨"sql", "mysql", "tenant_two", false, some 22⟩)], Registry.started.gInDB⟩
      = .ret (⟨"sql", "mysql", "tenant_two", false, some 22⟩, none) := by
  decide

/-! ## Alias format, parameter count and malformed dates -/

/-- C11: `VerifyApiAliasFormat` returns nil exactly for the strings that begin
with the two characters `a_` (the strings the pattern `^a_+` matches) and the
error "Invalid API alias format" for every other string; the pattern compiles,
so no compilation error is ever returned. `a_marketing_01` is accepted,
`bad_alias` is rejected. -/
theorem C11_alias_accepted_iff_prefix (alias_ : String) :
    (VerifyApiAliasFormat alias_ = none ↔ "a_".toList <+: alias_.toList) ∧
    (VerifyApiAliasFormat alias_ = some errInvalidAlias ↔ ¬ "a_".toList <+: alias_.toList) ∧
    (regexpMatchString "^a_+" alias_ = .ok true ↔ "a_".toList <+: alias_.toList) ∧
    (∃ b, regexpMatchString "^a_+" alias_ = .ok b) ∧
    VerifyApiAliasFormat "a_marketing_01" = none ∧
    VerifyApiAliasFormat "bad_alias" = some errInvalidAlias := by
  have hv := VerifyApiAliasFormat_eq alias_
  have hok : ∃ b, regexpMatchString "^a_+" alias_ = .ok b := by
    unfold regexpMatchString
    rw [compileRe_alias]
    exact ⟨_, rfl⟩
  obtain ⟨b, hb⟩ := hok
  have hb2 : b = true ↔ "a_".toList <+: alias_.toList := by
    have hv2 := hv
    unfold VerifyApiAliasFormat at hv2
    rw [hb] at hv2
    by_cases hpre : "a_".toList <+: alias_.toList
    · rw [if_pos hpre] at hv2
      cases b with
      | true => exact iff_of_true rfl hpre
      | false => simp at hv2
    · rw [if_neg hpre] at hv2
      cases b with
      | true => simp at hv2
      | false => exact iff_of_false (by simp) hpre
  have hgood : VerifyApiAliasFormat "a_marketing_01" = none := by
    rw [VerifyApiAliasFormat_eq, if_pos (by decide)]
  have hbad : VerifyApiAliasFormat "bad_alias" = some errInvalidAlias := by
    rw [VerifyApiAliasFormat_eq, if_neg (by decide)]
  refine ⟨?_, ?_, ?_, ⟨b, hb⟩, hgood, hbad⟩
  · rw [hv]
    by_cases hpre : "a_".toList <+: alias_.toList <;> simp [hpre]
  · rw [hv]
    by_cases hpre : "a_".toList <+: alias_.toList <;> simp [hpre]
  · rw [hb]
    constructor
    · intro h
      exact hb2.1 (by injection h)
    · intro h
      rw [hb2.2 h]

/-- C12: `verifyParameters` returns nil exactly when the supplied values and the
required keys are equally many, and the error "Invalid paramters" otherwise; two
calls whose sequences have the same two lengths return the same result, whatever
the values and the key names are. -/
theorem C12_parameters_checked_by_count {V : Type} (standard standard2 : List V)
    (target target2 : List String) :
    (verifyParameters standard target = none ↔ standard.length = target.length) ∧
    (verifyParameters standard target = some "Invalid paramters"
      ↔ standard.length ≠ target.length) ∧
    (standard2.length = standard.length → target2.length = target.length →
      verifyParameters standard2 target2 = verifyParameters standard target) := by
  unfold verifyParameters
  refine ⟨?_, ?_, ?_⟩
  · by_cases h : standard.length = target.length <;> simp [h]
  · by_cases h : standard.length = target.length <;> simp [h]
  · intro h1 h2
    rw [h1, h2]

/-- C12 at concrete inputs: one value against one key is accepted although the
key is not the one the value answers, and the result is the one of any other
pair of singletons. -/
theorem C12_parameters_checked_by_count_witness :
    verifyParameters ["10"] ["region"] = none ∧
    verifyParameters ["10", "20"] ["region"] = some "Invalid paramters" ∧
    verifyParameters ["north"] ["age"] = verifyParameters ["10"] ["region"] :=
  ⟨by decide, by decide,
   (C12_parameters_checked_by_count ["10"] ["north"] ["region"] ["age"]).2.2 rfl rfl⟩

/-- C14: for a date that `time.Parse` rejects, whatever the status, and a current
time later than the zero time, `VerifyExpires` returns the error "This API has
expired": the zero time returned with the parse error is before now, so the
parse error is overwritten and the definition is not reported valid. -/
theorem C14_malformed_date_reports_expired (lib : TimeLib) (now : Time) (tracking : Bool)
    (date status : String) (e : GoError)
    (hparse : lib.parse date = .error e) (hnow : Time.zero < now) :
    VerifyExpires lib now tracking date status = some errExpired ∧
    VerifyExpires lib now tracking date status ≠ none := by
  have h : VerifyExpires lib now tracking date status = some errExpired := by
    simp [VerifyExpires, hparse, Time.Before, hnow]
  rw [h]
  exact ⟨rfl, by simp⟩

/-- C14 at a date with month 13, checked on 2026-11-04 10:00:00 for an active
definition. -/
theorem C14_malformed_date_reports_expired_witness :
    VerifyExpires TimeLib.utc now0 false "2026-13-04 10:00:00" "active" = some errExpired ∧
    VerifyExpires TimeLib.utc now0 false "2026-13-04 10:00:00" "active" ≠ none :=
  C14_malformed_date_reports_expired TimeLib.utc now0 false "2026-13-04 10:00:00" "active"
    "parsing time: out of range" (by rfl) (by decide)

end PrivacyDam
